import Mathlib

/-!
Verification of the clock-skew-corrected state aggregation and kinematic-frame
derivation pipeline of the spot_ros2 driver
(`spot_driver_cpp/src/api/default_robot_state_client.cpp` and
`spot_driver/src/api/default_state_client.cpp`), as a shallow embedding.

Conventions: protobuf message fields are embedded as structure fields; a
protobuf sub-message accessor always yields a value (the default instance when
the sub-message is unset), with a separate `has_...` flag, exactly as protobuf
C++ accessors behave.  Scalar coordinates are `Rat`, timestamps are pairs of
integers.  Fallible C++ paths (`tl::expected`, thrown exceptions) are embedded
as `Except`.
-/

/-- Seconds/nanoseconds pair, used both for `google::protobuf::Timestamp` and
for the `builtin_interfaces::msg::Time` produced by the driver. -/
structure Timestamp where
  seconds : Int
  nanos : Int
deriving DecidableEq, Repr

/-- Seconds/nanoseconds pair for `google::protobuf::Duration` (the clock skew). -/
structure Duration where
  seconds : Int
  nanos : Int
deriving DecidableEq, Repr

/-- Modelled from the spec: `spot_ros2::applyClockSkew` (TimestampCorrector,
`conversions`, not under `src/`).  Per §4.1 it "adds skew to raw timestamp
using saturating/wrapping-free 64-bit signed arithmetic over
seconds+nanoseconds pairs, normalizing nanosecond overflow into seconds";
modelled wrapping-free over `Int` with one normalization step. -/
def applyClockSkew (t : Timestamp) (skew : Duration) : Timestamp :=
  if t.nanos + skew.nanos < 0 then
    ⟨t.seconds + skew.seconds - 1, t.nanos + skew.nanos + 1000000000⟩
  else if 1000000000 ≤ t.nanos + skew.nanos then
    ⟨t.seconds + skew.seconds + 1, t.nanos + skew.nanos - 1000000000⟩
  else
    ⟨t.seconds + skew.seconds, t.nanos + skew.nanos⟩

/-- A protobuf `Timestamp` keeps its nanosecond field in `[0, 10^9)`. -/
def Timestamp.WellFormed (t : Timestamp) : Prop :=
  0 ≤ t.nanos ∧ t.nanos < 1000000000

/-- A protobuf `Duration` keeps its nanosecond field in `(-10^9, 10^9)`. -/
def Duration.WellFormed (d : Duration) : Prop :=
  -1000000000 < d.nanos ∧ d.nanos < 1000000000

instance (t : Timestamp) : Decidable t.WellFormed := by
  unfold Timestamp.WellFormed; infer_instance

instance (d : Duration) : Decidable d.WellFormed := by
  unfold Duration.WellFormed; infer_instance

/-- Total nanosecond count of a timestamp, the abstraction used to reason about
normalization. -/
def Timestamp.toNanos (t : Timestamp) : Int :=
  t.seconds * 1000000000 + t.nanos

/-- Total nanosecond count of a duration. -/
def Duration.toNanos (d : Duration) : Int :=
  d.seconds * 1000000000 + d.nanos

/-- Negation of a skew duration. -/
def Duration.neg (d : Duration) : Duration :=
  ⟨-d.seconds, -d.nanos⟩

/-! ## Geometry: `::bosdyn::api::SE3Pose` and the SDK operations used by the
driver (`~` inversion, composition).  Coordinates are embedded as `Rat`. -/

/-- 3-vector (`bosdyn.api.Vec3` / `geometry_msgs` vector fields). -/
structure Vec3 where
  x : Rat
  y : Rat
  z : Rat
deriving DecidableEq, Repr

/-- Quaternion (`bosdyn.api.Quaternion`). -/
structure Quat where
  x : Rat
  y : Rat
  z : Rat
  w : Rat
deriving DecidableEq, Repr

/-- Hamilton product of quaternions, as in the SDK's quaternion arithmetic. -/
def Quat.mul (a b : Quat) : Quat :=
  ⟨a.w * b.x + a.x * b.w + a.y * b.z - a.z * b.y,
   a.w * b.y - a.x * b.z + a.y * b.w + a.z * b.x,
   a.w * b.z + a.x * b.y - a.y * b.x + a.z * b.w,
   a.w * b.w - a.x * b.x - a.y * b.y - a.z * b.z⟩

/-- Quaternion conjugate (the SDK's `~` on unit quaternions). -/
def Quat.conj (q : Quat) : Quat := ⟨-q.x, -q.y, -q.z, q.w⟩

/-- Rotation of a vector by a quaternion: the vector part of `q * (v, 0) * q.conj`. -/
def Quat.rotate (q : Quat) (v : Vec3) : Vec3 :=
  let p : Quat := ⟨v.x, v.y, v.z, 0⟩
  let r := (q.mul p).mul q.conj
  ⟨r.x, r.y, r.z⟩

/-- Rigid transform (`bosdyn.api.SE3Pose`): translation plus rotation. -/
structure SE3Pose where
  position : Vec3
  rotation : Quat
deriving DecidableEq, Repr

/-- Default-constructed protobuf `SE3Pose`: every field zero (the quaternion is
the all-zero quaternion, not identity). -/
def SE3Pose.protoDefault : SE3Pose := ⟨⟨0, 0, 0⟩, ⟨0, 0, 0, 0⟩⟩

/-- Identity rigid transform. -/
def SE3Pose.identity : SE3Pose := ⟨⟨0, 0, 0⟩, ⟨0, 0, 0, 1⟩⟩

/-- Composition of rigid transforms, as in the SDK's `operator*`. -/
def SE3Pose.mul (a b : SE3Pose) : SE3Pose :=
  ⟨⟨a.position.x + (a.rotation.rotate b.position).x,
    a.position.y + (a.rotation.rotate b.position).y,
    a.position.z + (a.rotation.rotate b.position).z⟩,
   a.rotation.mul b.rotation⟩

/-- Inverse rigid transform: the SDK's `operator~` on `SE3Pose`, used at the
`~(transform.parent_tform_child())` call in `GetTf`.  The rotation is
conjugated and the negated translation is rotated into the new frame. -/
def SE3Pose.inverse (a : SE3Pose) : SE3Pose :=
  ⟨a.rotation.conj.rotate ⟨-a.position.x, -a.position.y, -a.position.z⟩,
   a.rotation.conj⟩

/-! ## Input data model: the `::bosdyn::api::RobotState` protobuf fields read
by the driver.  Sub-message accessors always yield a value (protobuf default
instance when unset), with a separate `has_...` flag. -/

/-- One edge of `transforms_snapshot().child_to_parent_edge_map()`: the stored
parent frame name and the parent-from-child transform. -/
structure ParentEdge where
  parent_frame_name : String
  parent_tform_child : SE3Pose
deriving DecidableEq, Repr

/-- The snapshot's transform graph: association list from child frame name to
its parent edge, in snapshot order. -/
abbrev FrameTreeSnapshot := List (String × ParentEdge)

/-- Linear/angular velocity pair (`bosdyn.api.SE3Velocity`). -/
structure SE3Velocity where
  linear : Vec3
  angular : Vec3
deriving DecidableEq, Repr

/-- One entry of `kinematic_state().joint_states()`. -/
structure JointStateRaw where
  name : String
  position : Rat
  velocity : Rat
  load : Rat
deriving DecidableEq, Repr

/-- `robot_state.kinematic_state()`. -/
structure KinematicState where
  acquisition_timestamp : Timestamp
  joint_states : List JointStateRaw
  transforms_snapshot : FrameTreeSnapshot
  velocity_of_body_in_odom : SE3Velocity
deriving DecidableEq, Repr

/-- Protobuf default instance of the kinematic state. -/
def KinematicState.protoDefault : KinematicState :=
  ⟨⟨0, 0⟩, [], [], ⟨⟨0, 0, 0⟩, ⟨0, 0, 0⟩⟩⟩

/-- One entry of `robot_state.battery_states()`. -/
structure BatteryStateRaw where
  timestamp : Timestamp
  identifier : String
  charge_percentage : Rat
  estimated_runtime : Duration
  current : Rat
  voltage : Rat
  temperatures : List Rat
  status : Int
deriving DecidableEq, Repr

/-- One entry of `robot_state.comms_states()`. -/
structure CommsStateRaw where
  has_wifi_state : Bool
  current_mode : Int
  essid : String
deriving DecidableEq, Repr

/-- One entry of `robot_state.foot_state()`. -/
structure FootStateRaw where
  foot_position_rt_body : Vec3
  contact : Int
deriving DecidableEq, Repr

/-- One entry of `robot_state.estop_states()`. -/
structure EStopStateRaw where
  timestamp : Timestamp
  name : String
  type : Int
  state : Int
  state_description : String
deriving DecidableEq, Repr

/-- `robot_state.power_state()`. -/
structure PowerStateRaw where
  timestamp : Timestamp
  motor_power_state : Int
  shore_power_state : Int
  locomotion_charge_percentage : Rat
  locomotion_estimated_runtime : Duration
deriving DecidableEq, Repr

/-- One entry of the system fault lists. -/
structure SystemFaultRaw where
  name : String
  onset_timestamp : Timestamp
  duration : Duration
  code : Int
  uid : Int
  error_message : String
  attributes : List String
  severity : Int
deriving DecidableEq, Repr

/-- `robot_state.system_fault_state()`. -/
structure SystemFaultStateRaw where
  faults : List SystemFaultRaw
  historical_faults : List SystemFaultRaw
deriving DecidableEq, Repr

/-- `robot_state.manipulator_state()`. -/
structure ManipulatorStateRaw where
  gripper_open_percentage : Rat
  is_gripper_holding_item : Bool
  estimated_end_effector_force_in_hand : Vec3
  has_estimated_end_effector_force_in_hand : Bool
  stow_state : Int
  velocity_of_hand_in_vision : SE3Velocity
  has_velocity_of_hand_in_vision : Bool
  velocity_of_hand_in_odom : SE3Velocity
  has_velocity_of_hand_in_odom : Bool
  carry_state : Int
deriving DecidableEq, Repr

/-- One entry of `behavior_fault_state().faults()`. -/
structure BehaviorFaultRaw where
  behavior_fault_id : Int
  onset_timestamp : Timestamp
  cause : Int
  status : Int
deriving DecidableEq, Repr

/-- The `::bosdyn::api::RobotState` protobuf, restricted to the fields the
driver reads. -/
structure RobotState where
  battery_states : List BatteryStateRaw
  comms_states : List CommsStateRaw
  foot_state : List FootStateRaw
  estop_states : List EStopStateRaw
  has_kinematic_state : Bool
  kinematic_state : KinematicState
  has_power_state : Bool
  power_state : PowerStateRaw
  has_system_fault_state : Bool
  system_fault_state : SystemFaultStateRaw
  has_manipulator_state : Bool
  manipulator_state : ManipulatorStateRaw
  has_behavior_fault_state : Bool
  behavior_fault_state : List BehaviorFaultRaw
deriving DecidableEq, Repr

/-! ## Output data model: the ROS message fields the driver writes. -/

/-- `spot_msgs::msg::BatteryState`. -/
structure BatteryStateMsg where
  stamp : Timestamp
  identifier : String
  charge_percentage : Rat
  estimated_runtime : Duration
  current : Rat
  voltage : Rat
  temperatures : List Rat
  status : Int
deriving DecidableEq, Repr

/-- `spot_msgs::msg::BatteryStateArray`. -/
structure BatteryStateArrayMsg where
  battery_states : List BatteryStateMsg
deriving DecidableEq, Repr

/-- `spot_msgs::msg::WiFiState`.  Default-constructed fields are zero/empty. -/
structure WiFiStateMsg where
  current_mode : Int
  essid : String
deriving DecidableEq, Repr

/-- `spot_msgs::msg::FootState`. -/
structure FootStateMsg where
  foot_position_rt_body : Vec3
  contact : Int
deriving DecidableEq, Repr

/-- `spot_msgs::msg::FootStateArray`. -/
structure FootStateArrayMsg where
  states : List FootStateMsg
deriving DecidableEq, Repr

/-- `spot_msgs::msg::EStopState`. -/
structure EStopStateMsg where
  stamp : Timestamp
  name : String
  type : Int
  state : Int
  state_description : String
deriving DecidableEq, Repr

/-- `spot_msgs::msg::EStopStateArray`. -/
structure EStopStateArrayMsg where
  estop_states : List EStopStateMsg
deriving DecidableEq, Repr

/-- `sensor_msgs::msg::JointState`. -/
structure JointStateMsg where
  stamp : Timestamp
  name : List String
  position : List Rat
  velocity : List Rat
  effort : List Rat
deriving DecidableEq, Repr

/-- `geometry_msgs::msg::TransformStamped`: `frame_id` is the header (parent)
frame, `child_frame_id` the child frame. -/
structure TransformStampedMsg where
  stamp : Timestamp
  frame_id : String
  child_frame_id : String
  transform : SE3Pose
deriving DecidableEq, Repr

/-- `tf2_msgs::msg::TFMessage`. -/
structure TFMessageMsg where
  transforms : List TransformStampedMsg
deriving DecidableEq, Repr

/-- `geometry_msgs::msg::Twist`. -/
structure TwistMsg where
  linear : Vec3
  angular : Vec3
deriving DecidableEq, Repr

/-- `geometry_msgs::msg::TwistWithCovarianceStamped` (covariance untouched by
the driver, omitted). -/
structure TwistWithCovarianceStampedMsg where
  stamp : Timestamp
  twist : TwistMsg
deriving DecidableEq, Repr

/-- `geometry_msgs::msg::Pose` as written by the driver. -/
structure PoseMsg where
  position : Vec3
  orientation : Quat
deriving DecidableEq, Repr

/-- `nav_msgs::msg::Odometry` as written by the driver. -/
structure OdometryMsg where
  stamp : Timestamp
  frame_id : String
  child_frame_id : String
  pose : PoseMsg
  twist : TwistMsg
deriving DecidableEq, Repr

/-- `spot_msgs::msg::PowerState` as written by the driver. -/
structure PowerStateMsg where
  stamp : Timestamp
  motor_power_state : Int
  shore_power_state : Int
  locomotion_charge_percentage : Rat
  locomotion_estimated_runtime : Duration
deriving DecidableEq, Repr

/-- `spot_msgs::msg::SystemFault` as written by the driver. -/
structure SystemFaultMsg where
  name : String
  stamp : Timestamp
  duration : Duration
  code : Int
  uid : Int
  error_message : String
  attributes : List String
  severity : Int
deriving DecidableEq, Repr

/-- `spot_msgs::msg::SystemFaultState` as written by the driver. -/
structure SystemFaultStateMsg where
  faults : List SystemFaultMsg
  historical_faults : List SystemFaultMsg
deriving DecidableEq, Repr

/-- `bosdyn_msgs::msg::ManipulatorState` as written by the driver. -/
structure ManipulatorStateMsg where
  gripper_open_percentage : Rat
  is_gripper_holding_item : Bool
  estimated_end_effector_force_in_hand : Vec3
  estimated_end_effector_force_in_hand_is_set : Bool
  stow_state : Int
  velocity_of_hand_in_vision : TwistMsg
  velocity_of_hand_in_vision_is_set : Bool
  velocity_of_hand_in_odom : TwistMsg
  velocity_of_hand_in_odom_is_set : Bool
  carry_state : Int
deriving DecidableEq, Repr

/-- `geometry_msgs::msg::Vector3Stamped` as written by the driver. -/
structure Vector3StampedMsg where
  stamp : Timestamp
  frame_id : String
  vector : Vec3
deriving DecidableEq, Repr

/-- `spot_msgs::msg::BehaviorFault` as written by the driver. -/
structure BehaviorFaultMsg where
  behavior_fault_id : Int
  stamp : Timestamp
  cause : Int
  status : Int
deriving DecidableEq, Repr

/-- `spot_msgs::msg::BehaviorFaultState` as written by the driver. -/
structure BehaviorFaultStateMsg where
  faults : List BehaviorFaultMsg
deriving DecidableEq, Repr

/-- The aggregated output bundle `spot_ros2::RobotState` (the struct returned
by `DefaultRobotStateClient::getRobotState`). -/
structure RobotStateOut where
  battery_states : BatteryStateArrayMsg
  wifi_state : WiFiStateMsg
  foot_states : FootStateArrayMsg
  estop_states : EStopStateArrayMsg
  joint_states : Option JointStateMsg
  tf : Option TFMessageMsg
  odom_twist : Option TwistWithCovarianceStampedMsg
  odom : Option OdometryMsg
  power_state : Option PowerStateMsg
  system_fault_state : Option SystemFaultStateMsg
  manipulator_state : Option ManipulatorStateMsg
  end_effector_force : Option Vector3StampedMsg
  behavior_fault_state : Option BehaviorFaultStateMsg
deriving DecidableEq, Repr

/-! ## Conversion functions of the anonymous namespace of
`default_robot_state_client.cpp`. -/

/-- The fixed friendly-name table `kFriendlyJointNames`. -/
def kFriendlyJointNames : List (String × String) :=
  [("fl.hx", "front_left_hip_x"),  ("fl.hy", "front_left_hip_y"),  ("fl.kn", "front_left_knee"),
   ("fr.hx", "front_right_hip_x"), ("fr.hy", "front_right_hip_y"), ("fr.kn", "front_right_knee"),
   ("hl.hx", "rear_left_hip_x"),   ("hl.hy", "rear_left_hip_y"),   ("hl.kn", "rear_left_knee"),
   ("hr.hx", "rear_right_hip_x"),  ("hr.hy", "rear_right_hip_y"),  ("hr.kn", "rear_right_knee"),
   ("arm0.sh0", "arm_sh0"),        ("arm0.sh1", "arm_sh1"),        ("arm0.hr0", "arm_hr0"),
   ("arm0.el0", "arm_el0"),        ("arm0.el1", "arm_el1"),        ("arm0.wr0", "arm_wr0"),
   ("arm0.wr1", "arm_wr1"),        ("arm0.f1x", "arm_f1x")]

/-- `GetBatteryStates`: per-battery copy with skew-corrected timestamp. -/
def GetBatteryStates (robot_state : RobotState) (clock_skew : Duration) :
    BatteryStateArrayMsg :=
  ⟨robot_state.battery_states.map (fun battery =>
    ⟨applyClockSkew battery.timestamp clock_skew, battery.identifier,
     battery.charge_percentage, battery.estimated_runtime, battery.current,
     battery.voltage, battery.temperatures, battery.status⟩)⟩

/-- `GetWifiState`: the loop overwrites the two fields for every comms state
that has a wifi state, so the last such entry wins; the message starts
default-constructed. -/
def GetWifiState (robot_state : RobotState) : WiFiStateMsg :=
  robot_state.comms_states.foldl
    (fun wifi_state comm_state =>
      if comm_state.has_wifi_state then ⟨comm_state.current_mode, comm_state.essid⟩
      else wifi_state)
    ⟨0, ""⟩

/-- `GetFootState`: per-foot copy. -/
def GetFootState (robot_state : RobotState) : FootStateArrayMsg :=
  ⟨robot_state.foot_state.map (fun foot => ⟨foot.foot_position_rt_body, foot.contact⟩)⟩

/-- `GetEstopStates`: per-estop copy with skew-corrected timestamp. -/
def GetEstopStates (robot_state : RobotState) (clock_skew : Duration) :
    EStopStateArrayMsg :=
  ⟨robot_state.estop_states.map (fun estop =>
    ⟨applyClockSkew estop.timestamp clock_skew, estop.name, estop.type, estop.state,
     estop.state_description⟩)⟩

/-- The loop body of `GetJointStates`: builds the four per-joint lists.  The
C++ loop calls `kFriendlyJointNames.at(joint.name())`, which throws
`std::out_of_range` at the first joint whose raw name is not a key of the
table; that throw is embedded as `Except.error` carrying the raw name. -/
def buildJointLists (joints : List JointStateRaw) (pfx : String) :
    Except String (List String × List Rat × List Rat × List Rat) :=
  match joints with
  | [] => .ok ([], [], [], [])
  | joint :: rest =>
    match kFriendlyJointNames.lookup joint.name with
    | none => .error joint.name
    | some friendly =>
      match buildJointLists rest pfx with
      | .error e => .error e
      | .ok (ns, ps, vs, es) =>
        .ok ((pfx ++ friendly) :: ns, joint.position :: ps, joint.velocity :: vs,
             joint.load :: es)

/-- `GetJointStates`: `.ok none` when the kinematic state is absent (the C++
returns an empty `std::optional`), `.error` when a joint name misses the table
(the C++ exception escaping the function), otherwise the filled message. -/
def GetJointStates (robot_state : RobotState) (clock_skew : Duration) (pfx : String) :
    Except String (Option JointStateMsg) :=
  if robot_state.has_kinematic_state then
    match buildJointLists robot_state.kinematic_state.joint_states pfx with
    | .error e => .error e
    | .ok (ns, ps, vs, es) =>
      .ok (some ⟨applyClockSkew robot_state.kinematic_state.acquisition_timestamp clock_skew,
                 ns, ps, vs, es⟩)
  else .ok none

/-- Modelled from the spec: `spot_ros2::conversions::toTransformStamped`
(`conversions/geometry`, not under `src/`).  Per §4.2 rule 3, the call
`toTransformStamped(value, a, b, time)` yields an edge with `parent_id = a`
and `child_id = b` carrying `value` and `time`. -/
def toTransformStamped (tf : SE3Pose) (parent_frame : String) (child_frame : String)
    (tf_time : Timestamp) : TransformStampedMsg :=
  ⟨tf_time, parent_frame, child_frame, tf⟩

/-- `GetTf`: one output edge per snapshot edge, in snapshot order; the edge
whose prefixed child name equals `inverse_target_frame_id` is emitted inverted
with the prefixed child as first (parent) name argument, all others are
emitted unchanged with the prefixed stored parent as first name argument. -/
def GetTf (robot_state : RobotState) (clock_skew : Duration) (pfx : String)
    (inverse_target_frame_id : String) : Option TFMessageMsg :=
  if robot_state.has_kinematic_state then
    some ⟨robot_state.kinematic_state.transforms_snapshot.map (fun edge =>
      let local_time :=
        applyClockSkew robot_state.kinematic_state.acquisition_timestamp clock_skew
      if inverse_target_frame_id = pfx ++ edge.fst then
        toTransformStamped edge.snd.parent_tform_child.inverse (pfx ++ edge.fst)
          (pfx ++ edge.snd.parent_frame_name) local_time
      else
        toTransformStamped edge.snd.parent_tform_child
          (pfx ++ edge.snd.parent_frame_name) (pfx ++ edge.fst) local_time)⟩
  else none

/-- `GetOdomTwist`: reads `velocity_of_body_in_odom`.  The source's line 153
assigns `angular.x` from `linear().x()` (not `angular().x()`); the embedding
reproduces that assignment verbatim. -/
def GetOdomTwist (robot_state : RobotState) (clock_skew : Duration) :
    Option TwistWithCovarianceStampedMsg :=
  if robot_state.has_kinematic_state then
    some ⟨applyClockSkew robot_state.kinematic_state.acquisition_timestamp clock_skew,
      ⟨⟨robot_state.kinematic_state.velocity_of_body_in_odom.linear.x,
        robot_state.kinematic_state.velocity_of_body_in_odom.linear.y,
        robot_state.kinematic_state.velocity_of_body_in_odom.linear.z⟩,
       ⟨robot_state.kinematic_state.velocity_of_body_in_odom.linear.x,
        robot_state.kinematic_state.velocity_of_body_in_odom.angular.y,
        robot_state.kinematic_state.velocity_of_body_in_odom.angular.z⟩⟩⟩
  else none

/-- Modelled from the spec: the walk of the SDK helpers
`GetWorldTformBody`/`GetOdomTformBody` up the snapshot's child-to-parent edge
map, per §4.3 ("walking the snapshot's transform graph ... composing the chain
of rigid transforms").  Returns the root-from-frame transform together with
the root frame name; fuel bounds the walk so a malformed cyclic snapshot
yields `none` instead of divergence. -/
def walkToRoot (edges : FrameTreeSnapshot) (frame : String) :
    Nat → Option (SE3Pose × String)
  | 0 => none
  | fuel + 1 =>
    match edges.lookup frame with
    | none => some (SE3Pose.identity, frame)
    | some e =>
      (walkToRoot edges e.parent_frame_name fuel).map
        (fun p => (p.fst.mul e.parent_tform_child, p.snd))

/-- Modelled from the spec: `a_tform_b` resolution over the snapshot, per §4.3
— the composed chain from frame `a` to frame `b`, failing (`none`) when the
two frames do not reach a common root, i.e. when no path exists. -/
def aTformB (edges : FrameTreeSnapshot) (a b : String) : Option SE3Pose :=
  match walkToRoot edges a (edges.length + 1), walkToRoot edges b (edges.length + 1) with
  | some ta, some tb => if ta.snd = tb.snd then some (ta.fst.inverse.mul tb.fst) else none
  | _, _ => none

/-- `GetOdom`: the C++ declares a default-constructed `SE3Pose tf_body_pose`
and passes its address to `GetWorldTformBody`/`GetOdomTformBody`, discarding
the returned success flag; on resolution failure the pose therefore keeps its
default (all-zero) value.  `GetOdomTwist(...).value()` is guarded by the same
`has_kinematic_state` check, so the empty-optional throw is unreachable and
embedded as `getD`. -/
def GetOdom (robot_state : RobotState) (clock_skew : Duration) (pfx : String)
    (is_using_vision : Bool) : Option OdometryMsg :=
  if robot_state.has_kinematic_state then
    let tf_body_pose :=
      (if is_using_vision then
        aTformB robot_state.kinematic_state.transforms_snapshot "vision" "body"
      else
        aTformB robot_state.kinematic_state.transforms_snapshot "odom" "body").getD
        SE3Pose.protoDefault
    some ⟨applyClockSkew robot_state.kinematic_state.acquisition_timestamp clock_skew,
      if is_using_vision then pfx ++ "vision" else pfx ++ "odom",
      pfx ++ "body",
      ⟨tf_body_pose.position, tf_body_pose.rotation⟩,
      ((GetOdomTwist robot_state clock_skew).getD ⟨⟨0, 0⟩, ⟨⟨0, 0, 0⟩, ⟨0, 0, 0⟩⟩⟩).twist⟩
  else none

/-- `GetPowerState`: copy with skew-corrected timestamp when present. -/
def GetPowerState (robot_state : RobotState) (clock_skew : Duration) :
    Option PowerStateMsg :=
  if robot_state.has_power_state then
    some ⟨applyClockSkew robot_state.power_state.timestamp clock_skew,
      robot_state.power_state.motor_power_state,
      robot_state.power_state.shore_power_state,
      robot_state.power_state.locomotion_charge_percentage,
      robot_state.power_state.locomotion_estimated_runtime⟩
  else none

/-- The lambda `create_fault_message` of `GetSystemFaultState`. -/
def createFaultMessage (clock_skew : Duration) (fault : SystemFaultRaw) : SystemFaultMsg :=
  ⟨fault.name, applyClockSkew fault.onset_timestamp clock_skew, fault.duration,
   fault.code, fault.uid, fault.error_message, fault.attributes, fault.severity⟩

/-- `GetSystemFaultState`: current and historical fault lists when present. -/
def GetSystemFaultState (robot_state : RobotState) (clock_skew : Duration) :
    Option SystemFaultStateMsg :=
  if robot_state.has_system_fault_state then
    some ⟨robot_state.system_fault_state.faults.map (createFaultMessage clock_skew),
          robot_state.system_fault_state.historical_faults.map (createFaultMessage clock_skew)⟩
  else none

/-- `GetManipulatorState`: field copy when present. -/
def GetManipulatorState (robot_state : RobotState) : Option ManipulatorStateMsg :=
  if robot_state.has_manipulator_state then
    some ⟨robot_state.manipulator_state.gripper_open_percentage,
      robot_state.manipulator_state.is_gripper_holding_item,
      robot_state.manipulator_state.estimated_end_effector_force_in_hand,
      robot_state.manipulator_state.has_estimated_end_effector_force_in_hand,
      robot_state.manipulator_state.stow_state,
      ⟨robot_state.manipulator_state.velocity_of_hand_in_vision.linear,
       robot_state.manipulator_state.velocity_of_hand_in_vision.angular⟩,
      robot_state.manipulator_state.has_velocity_of_hand_in_vision,
      ⟨robot_state.manipulator_state.velocity_of_hand_in_odom.linear,
       robot_state.manipulator_state.velocity_of_hand_in_odom.angular⟩,
      robot_state.manipulator_state.has_velocity_of_hand_in_odom,
      robot_state.manipulator_state.carry_state⟩
  else none

/-- `GetEndEffectorForce`: present iff the manipulator state is present; the
stamp is taken from the kinematic state's acquisition timestamp (the protobuf
default instance when the kinematic state is unset). -/
def GetEndEffectorForce (robot_state : RobotState) (clock_skew : Duration)
    (pfx : String) : Option Vector3StampedMsg :=
  if robot_state.has_manipulator_state then
    some ⟨applyClockSkew robot_state.kinematic_state.acquisition_timestamp clock_skew,
      pfx ++ "hand",
      robot_state.manipulator_state.estimated_end_effector_force_in_hand⟩
  else none

/-- `GetBehaviorFaultState`: per-fault copy with skew-corrected timestamp. -/
def GetBehaviorFaultState (robot_state : RobotState) (clock_skew : Duration) :
    Option BehaviorFaultStateMsg :=
  if robot_state.has_behavior_fault_state then
    some ⟨robot_state.behavior_fault_state.map (fun fault =>
      ⟨fault.behavior_fault_id, applyClockSkew fault.onset_timestamp clock_skew,
       fault.cause, fault.status⟩)⟩
  else none

/-! ## The aggregator `DefaultRobotStateClient::getRobotState`. -/

/-- The fetch outcome `::bosdyn::client::RobotStateResultType` as consumed by
the driver: success status, payload-presence flag and payload, plus the
diagnostic string of the status. -/
structure RobotStateResultType where
  status_ok : Bool
  has_robot_state : Bool
  robot_state : RobotState
  status_debug : String
deriving Repr

/-- The ways one aggregation cycle can fail to produce a `RobotStateOut`:
the returned `tl::unexpected` strings of the two guard steps, and the
`std::out_of_range` escaping from `kFriendlyJointNames.at` (carrying the raw
joint name). -/
inductive AggError where
  | rpcError (msg : String)
  | clockSyncError (msg : String)
  | unknownJointError (joint_name : String)
deriving DecidableEq, Repr

/-- The client object: the constructor stores
`frame_prefix_ = robot_name.empty() ? "" : robot_name + "/"`.  The RPC client
and time-sync collaborators are passed to `getRobotState` explicitly in this
embedding. -/
structure DefaultRobotStateClient where
  frame_prefix_ : String
deriving DecidableEq, Repr

/-- The constructor `DefaultRobotStateClient::DefaultRobotStateClient`,
restricted to the state it stores from `robot_name`. -/
def mkDefaultRobotStateClient (robot_name : String) : DefaultRobotStateClient :=
  ⟨if robot_name = "" then "" else robot_name ++ "/"⟩

set_option linter.unusedVariables false in
/-- `DefaultRobotStateClient::getRobotState`.  The time-sync collaborator is a
function from call index to call outcome, and the second component of the
result counts how many times `getClockSkew` was invoked, so call-once
properties are expressible.  The single stored `clock_skew_result.value()` is
reused for every conversion, exactly as in the source. -/
def DefaultRobotStateClient.getRobotState (client : DefaultRobotStateClient)
    (get_robot_state_result : RobotStateResultType)
    (getClockSkew : Nat → Except String Duration) :
    Except AggError RobotStateOut × Nat :=
  if !get_robot_state_result.status_ok || !get_robot_state_result.has_robot_state then
    (.error (.rpcError ("Failed to get robot state: " ++ get_robot_state_result.status_debug)), 0)
  else
    match getClockSkew 0 with
    | .error e => (.error (.clockSyncError ("Failed to get latest clock skew: " ++ e)), 1)
    | .ok skew =>
      let robot_state := get_robot_state_result.robot_state
      match GetJointStates robot_state skew "Opal/" with
      | .error joint_name => (.error (.unknownJointError joint_name), 1)
      | .ok joint_states =>
        (.ok ⟨GetBatteryStates robot_state skew,
              GetWifiState robot_state,
              GetFootState robot_state,
              GetEstopStates robot_state skew,
              joint_states,
              GetTf robot_state skew "Opal/" "body",
              GetOdomTwist robot_state skew,
              GetOdom robot_state skew "Opal/" true,
              GetPowerState robot_state skew,
              GetSystemFaultState robot_state skew,
              GetManipulatorState robot_state,
              GetEndEffectorForce robot_state skew "Opal/",
              GetBehaviorFaultState robot_state skew⟩, 1)

/-- `DefaultStateClient::getRobotState` (`spot_driver/src/api/
default_state_client.cpp`): passes the raw protobuf through after the same
fetch guard. -/
def DefaultStateClient.getRobotState (get_robot_state_result : RobotStateResultType) :
    Except String RobotState :=
  if !get_robot_state_result.status_ok || !get_robot_state_result.has_robot_state then
    .error ("Failed to get robot state: " ++ get_robot_state_result.status_debug)
  else
    .ok get_robot_state_result.robot_state

/-! ## Definitions supporting the claim statements: timestamp gathering,
joint-name predicate, and concrete example inputs. -/

/-- A `RobotState` whose joint names the friendly table can all resolve, so
`kFriendlyJointNames.at` cannot throw (vacuously when the kinematic state is
absent, since the lookup loop then never runs). -/
def JointNamesKnown (robot_state : RobotState) : Prop :=
  robot_state.has_kinematic_state = true →
    ∀ j ∈ robot_state.kinematic_state.joint_states,
      (kFriendlyJointNames.lookup j.name).isSome = true

instance (robot_state : RobotState) : Decidable (JointNamesKnown robot_state) := by
  unfold JointNamesKnown; infer_instance

/-- Every header stamp written into the aggregated output, gathered in a fixed
field order. -/
def RobotStateOut.collectStamps (out : RobotStateOut) : List Timestamp :=
  out.battery_states.battery_states.map BatteryStateMsg.stamp ++
  out.estop_states.estop_states.map EStopStateMsg.stamp ++
  (match out.joint_states with | some m => [m.stamp] | none => []) ++
  (match out.tf with | some m => m.transforms.map TransformStampedMsg.stamp | none => []) ++
  (match out.odom_twist with | some m => [m.stamp] | none => []) ++
  (match out.odom with | some m => [m.stamp] | none => []) ++
  (match out.power_state with | some m => [m.stamp] | none => []) ++
  (match out.system_fault_state with
    | some m => m.faults.map SystemFaultMsg.stamp ++ m.historical_faults.map SystemFaultMsg.stamp
    | none => []) ++
  (match out.end_effector_force with | some m => [m.stamp] | none => []) ++
  (match out.behavior_fault_state with | some m => m.faults.map BehaviorFaultMsg.stamp | none => []) 

/-- The raw input timestamp feeding each gathered output stamp, in the same
field order as `RobotStateOut.collectStamps`. -/
def RobotState.collectRawStamps (robot_state : RobotState) : List Timestamp :=
  robot_state.battery_states.map BatteryStateRaw.timestamp ++
  robot_state.estop_states.map EStopStateRaw.timestamp ++
  (if robot_state.has_kinematic_state then
    [robot_state.kinematic_state.acquisition_timestamp] else []) ++
  (if robot_state.has_kinematic_state then
    robot_state.kinematic_state.transforms_snapshot.map
      (fun _ => robot_state.kinematic_state.acquisition_timestamp) else []) ++
  (if robot_state.has_kinematic_state then
    [robot_state.kinematic_state.acquisition_timestamp] else []) ++
  (if robot_state.has_kinematic_state then
    [robot_state.kinematic_state.acquisition_timestamp] else []) ++
  (if robot_state.has_power_state then [robot_state.power_state.timestamp] else []) ++
  (if robot_state.has_system_fault_state then
    robot_state.system_fault_state.faults.map SystemFaultRaw.onset_timestamp ++
    robot_state.system_fault_state.historical_faults.map SystemFaultRaw.onset_timestamp
   else []) ++
  (if robot_state.has_manipulator_state then
    [robot_state.kinematic_state.acquisition_timestamp] else []) ++
  (if robot_state.has_behavior_fault_state then
    robot_state.behavior_fault_state.map BehaviorFaultRaw.onset_timestamp else [])

/-- A `RobotState` with every repeated field empty and every optional
sub-message absent. -/
def emptyRobotState : RobotState :=
  ⟨[], [], [], [], false, KinematicState.protoDefault, false,
   ⟨⟨0, 0⟩, 0, 0, 0, ⟨0, 0⟩⟩, false, ⟨[], []⟩, false,
   ⟨0, false, ⟨0, 0, 0⟩, false, 0, ⟨⟨0, 0, 0⟩, ⟨0, 0, 0⟩⟩, false,
    ⟨⟨0, 0, 0⟩, ⟨0, 0, 0⟩⟩, false, 0⟩, false, []⟩

/-- Example transform for the single-edge scenario of C1: translation
`(1, 2, 3)`, identity rotation. -/
def exampleTf : SE3Pose := ⟨⟨1, 2, 3⟩, ⟨0, 0, 0, 1⟩⟩

/-- Robot state holding exactly the single transform edge `child="body"`,
`parent="odom"`, `transform=exampleTf`. -/
def singleEdgeState : RobotState :=
  { emptyRobotState with
    has_kinematic_state := true
    kinematic_state :=
      { KinematicState.protoDefault with
        transforms_snapshot := [("body", ⟨"odom", exampleTf⟩)] } }

/-- Robot state with kinematic state present but an empty transform graph, so
no path exists between any two distinct frames. -/
def noPathState : RobotState :=
  { emptyRobotState with
    has_kinematic_state := true
    kinematic_state := KinematicState.protoDefault }

/-- Robot state whose body velocity has distinct linear `(1, 2, 3)` and
angular `(4, 5, 6)` components. -/
def velocityState : RobotState :=
  { emptyRobotState with
    has_kinematic_state := true
    kinematic_state :=
      { KinematicState.protoDefault with
        velocity_of_body_in_odom := ⟨⟨1, 2, 3⟩, ⟨4, 5, 6⟩⟩ } }

/-- Robot state whose kinematic state holds one joint with the unknown raw
name `"bogus"`. -/
def unknownJointState : RobotState :=
  { emptyRobotState with
    has_kinematic_state := true
    kinematic_state :=
      { KinematicState.protoDefault with joint_states := [⟨"bogus", 1, 2, 3⟩] } }

/-- A successful fetch result carrying `unknownJointState`. -/
def unknownJointFetch : RobotStateResultType :=
  ⟨true, true, unknownJointState, "STATUS_OK"⟩

/-- Robot state with kinematic state present, acquisition timestamp 100 s and
one joint with raw name `"fl.hx"`. -/
def acq100State : RobotState :=
  { emptyRobotState with
    has_kinematic_state := true
    kinematic_state :=
      { KinematicState.protoDefault with
        acquisition_timestamp := ⟨100, 0⟩
        joint_states := [⟨"fl.hx", 1, 2, 3⟩] } }

/-- A successful fetch result carrying `acq100State`. -/
def acq100Fetch : RobotStateResultType :=
  ⟨true, true, acq100State, "STATUS_OK"⟩

/-! ## Helper lemmas. -/

lemma applyClockSkew_toNanos (t : Timestamp) (d : Duration) :
    (applyClockSkew t d).toNanos = t.toNanos + d.toNanos := by
  unfold applyClockSkew Timestamp.toNanos Duration.toNanos
  split_ifs <;> simp <;> ring

lemma applyClockSkew_wellFormed (t : Timestamp) (d : Duration)
    (ht : t.WellFormed) (hd : d.WellFormed) :
    (applyClockSkew t d).WellFormed := by
  obtain ⟨ht0, ht1⟩ := ht
  obtain ⟨hd0, hd1⟩ := hd
  unfold applyClockSkew Timestamp.WellFormed
  split_ifs <;> simp <;> omega

lemma wellFormed_toNanos_inj (t u : Timestamp)
    (ht : t.WellFormed) (hu : u.WellFormed) (h : t.toNanos = u.toNanos) :
    t = u := by
  obtain ⟨ts, tn⟩ := t
  obtain ⟨us, un⟩ := u
  obtain ⟨ht0, ht1⟩ := ht
  obtain ⟨hu0, hu1⟩ := hu
  simp only [Timestamp.toNanos] at h ht0 ht1 hu0 hu1 ⊢
  simp only [Timestamp.mk.injEq]
  constructor <;> omega

lemma neg_wellFormed (d : Duration) (hd : d.WellFormed) : d.neg.WellFormed := by
  obtain ⟨h0, h1⟩ := hd
  constructor <;> simp only [Duration.neg] <;> omega

/-! ## Claim C8: algebra of the timestamp correction. -/

/-- C8: timestamp correction is a pure total function on seconds+nanoseconds
pairs; zero skew is the identity and applying a skew and then its negation
round-trips to the original timestamp, for every well-formed protobuf
timestamp/duration pair (nanos of a `Timestamp` lie in `[0, 10^9)`, nanos of a
`Duration` in `(-10^9, 10^9)`). -/
theorem c8_zero_identity_and_roundtrip (raw : Timestamp) (skew : Duration)
    (hraw : raw.WellFormed) (hskew : skew.WellFormed) :
    applyClockSkew raw ⟨0, 0⟩ = raw ∧
    applyClockSkew (applyClockSkew raw skew) skew.neg = raw := by
  have hz : Duration.WellFormed ⟨0, 0⟩ := by constructor <;> norm_num
  constructor
  · apply wellFormed_toNanos_inj _ _ (applyClockSkew_wellFormed raw ⟨0, 0⟩ hraw hz) hraw
    rw [applyClockSkew_toNanos]
    simp [Duration.toNanos]
  · have w1 := applyClockSkew_wellFormed raw skew hraw hskew
    have w2 := applyClockSkew_wellFormed _ skew.neg w1 (neg_wellFormed skew hskew)
    apply wellFormed_toNanos_inj _ _ w2 hraw
    rw [applyClockSkew_toNanos, applyClockSkew_toNanos]
    simp [Duration.toNanos, Duration.neg]
    ring

/-- C8 witness: the theorem applied at `raw = 100 s + 5 ns`,
`skew = 5 s + 999999999 ns`. -/
theorem c8_zero_identity_and_roundtrip_witness :
    Timestamp.WellFormed ⟨100, 5⟩ ∧ Duration.WellFormed ⟨5, 999999999⟩ ∧
    (applyClockSkew ⟨100, 5⟩ ⟨0, 0⟩ = ⟨100, 5⟩ ∧
     applyClockSkew (applyClockSkew ⟨100, 5⟩ ⟨5, 999999999⟩)
       (Duration.neg ⟨5, 999999999⟩) = ⟨100, 5⟩) :=
  ⟨by decide, by decide,
   c8_zero_identity_and_roundtrip ⟨100, 5⟩ ⟨5, 999999999⟩ (by decide) (by decide)⟩

/-! ## Claims C1 and C9: the frame-tree builder. -/

lemma getTf_eq (robot_state : RobotState) (clock_skew : Duration) (pfx tgt : String)
    (hk : robot_state.has_kinematic_state = true) :
    GetTf robot_state clock_skew pfx tgt =
      some ⟨robot_state.kinematic_state.transforms_snapshot.map (fun edge =>
        if tgt = pfx ++ edge.fst then
          ⟨applyClockSkew robot_state.kinematic_state.acquisition_timestamp clock_skew,
           pfx ++ edge.fst, pfx ++ edge.snd.parent_frame_name,
           edge.snd.parent_tform_child.inverse⟩
        else
          ⟨applyClockSkew robot_state.kinematic_state.acquisition_timestamp clock_skew,
           pfx ++ edge.snd.parent_frame_name, pfx ++ edge.fst,
           edge.snd.parent_tform_child⟩)⟩ := by
  unfold GetTf
  rw [if_pos hk]
  rfl

/-- C1 counterexample: on the single edge `child="body"`, `parent="odom"`,
`transform=exampleTf` with empty prefix and invert target `"body"`, the code
emits the edge with `frame_id` (the parent role) `"body"` and
`child_frame_id` `"odom"` — not, as the claim states, `child_id="body"` and
`parent_id="odom"`. -/
theorem c1_counterexample :
    (GetTf singleEdgeState ⟨0, 0⟩ "" "body").map
      (fun m => m.transforms.map (fun e => (e.frame_id, e.child_frame_id))) =
      some [("body", "odom")] ∧
    some [("body", "odom")] ≠ some [("odom", "body")] := by
  constructor
  · rw [getTf_eq _ _ _ _ (by decide)]
    decide
  · decide

/-- C1 amended: for every transform graph entry whose prefixed child name
equals the invert target, `GetTf` emits an edge carrying the geometric inverse
of the stored `parent_tform_child` with the roles swapped: the prefixed child
name takes the parent role (`frame_id`) and the prefixed stored parent name
takes the child role (`child_frame_id`). -/
theorem c1_inverted_edge_swaps_roles (robot_state : RobotState) (clock_skew : Duration)
    (pfx tgt : String) (hk : robot_state.has_kinematic_state = true)
    (child : String) (pe : ParentEdge)
    (hmem : (child, pe) ∈ robot_state.kinematic_state.transforms_snapshot)
    (hm : tgt = pfx ++ child) :
    ∃ msg, GetTf robot_state clock_skew pfx tgt = some msg ∧
      (⟨applyClockSkew robot_state.kinematic_state.acquisition_timestamp clock_skew,
        pfx ++ child, pfx ++ pe.parent_frame_name,
        pe.parent_tform_child.inverse⟩ : TransformStampedMsg) ∈ msg.transforms := by
  refine ⟨_, getTf_eq robot_state clock_skew pfx tgt hk, ?_⟩
  refine List.mem_map.mpr ⟨(child, pe), hmem, ?_⟩
  rw [if_pos hm]

/-- C1 witness: the amended theorem applied to the single-edge state with
empty prefix and invert target `"body"`. -/
theorem c1_inverted_edge_swaps_roles_witness :
    singleEdgeState.has_kinematic_state = true ∧
    ("body", (⟨"odom", exampleTf⟩ : ParentEdge)) ∈
      singleEdgeState.kinematic_state.transforms_snapshot ∧
    ("body" : String) = "" ++ "body" ∧
    ∃ msg, GetTf singleEdgeState ⟨0, 0⟩ "" "body" = some msg ∧
      (⟨applyClockSkew singleEdgeState.kinematic_state.acquisition_timestamp ⟨0, 0⟩,
        "" ++ "body", "" ++ "odom",
        SE3Pose.inverse exampleTf⟩ : TransformStampedMsg) ∈ msg.transforms :=
  ⟨rfl, List.Mem.head _, rfl,
   c1_inverted_edge_swaps_roles singleEdgeState ⟨0, 0⟩ "" "body" rfl
     "body" ⟨"odom", exampleTf⟩ (List.Mem.head _) rfl⟩

lemma body_ne_opal_append (s : String) : ("body" : String) ≠ "Opal/" ++ s := by
  intro h
  have hlen := congrArg String.length h
  rw [String.length_append] at hlen
  have h5 : "Opal/".length = 5 := rfl
  have h4 : "body".length = 4 := rfl
  omega

/-- C9: under the compiled-in configuration of `getRobotState` (prefix
`"Opal/"`, invert target `"body"`), the inversion branch of `GetTf` is
unreachable: every emitted edge is the stored transform with
`frame_id = "Opal/" + parent_frame_name` and `child_frame_id = "Opal/" +
child_frame_name`, because `"body"` never equals an `"Opal/"`-prefixed child
name. -/
theorem c9_invert_branch_unreachable (robot_state : RobotState) (clock_skew : Duration)
    (hk : robot_state.has_kinematic_state = true) :
    GetTf robot_state clock_skew "Opal/" "body" =
      some ⟨robot_state.kinematic_state.transforms_snapshot.map (fun edge =>
        ⟨applyClockSkew robot_state.kinematic_state.acquisition_timestamp clock_skew,
         "Opal/" ++ edge.snd.parent_frame_name, "Opal/" ++ edge.fst,
         edge.snd.parent_tform_child⟩)⟩ := by
  rw [getTf_eq _ _ _ _ hk]
  refine congrArg (fun l => some (TFMessageMsg.mk l)) ?_
  refine List.map_congr_left (fun edge _ => ?_)
  rw [if_neg (body_ne_opal_append edge.fst)]

/-- C9 witness: the theorem applied to the single-edge state: the stored edge
with raw child name `"body"` is still emitted without inversion, since its
prefixed name is `"Opal/body"`. -/
theorem c9_invert_branch_unreachable_witness :
    singleEdgeState.has_kinematic_state = true ∧
    (GetTf singleEdgeState ⟨0, 0⟩ "Opal/" "body").map
      (fun m => m.transforms.map (fun e => (e.frame_id, e.child_frame_id))) =
      some [("Opal/odom", "Opal/body")] := by
  refine ⟨rfl, ?_⟩
  rw [c9_invert_branch_unreachable singleEdgeState ⟨0, 0⟩ rfl]
  decide

/-! ## Claim C2: odometry when no transform path exists. -/

/-- C2 counterexample: on a snapshot with kinematic state present but an empty
transform graph, no path exists between `"vision"` and `"body"`
(`aTformB` fails), yet `GetOdom` does not fail: it returns a message whose
pose is the default-constructed (all-zero) pose, because the success flag of
the SDK resolution helper is discarded. -/
theorem c2_counterexample :
    aTformB noPathState.kinematic_state.transforms_snapshot "vision" "body" = none ∧
    (GetOdom noPathState ⟨0, 0⟩ "Opal/" true).map (fun m => m.pose) =
      some ⟨⟨0, 0, 0⟩, ⟨0, 0, 0, 0⟩⟩ := by
  constructor
  · decide
  · decide

/-- C2 amended: whenever the kinematic state is present and no transform path
exists between the chosen reference frame and the body frame, `GetOdom` still
returns a message (no error is produced), carrying the default-constructed
all-zero pose. -/
theorem c2_no_path_default_pose (robot_state : RobotState) (clock_skew : Duration)
    (pfx : String) (is_using_vision : Bool)
    (hk : robot_state.has_kinematic_state = true)
    (hnopath : aTformB robot_state.kinematic_state.transforms_snapshot
        (if is_using_vision then "vision" else "odom") "body" = none) :
    ∃ msg, GetOdom robot_state clock_skew pfx is_using_vision = some msg ∧
      msg.pose = ⟨SE3Pose.protoDefault.position, SE3Pose.protoDefault.rotation⟩ := by
  unfold GetOdom
  rw [if_pos hk]
  cases is_using_vision
  · rw [if_neg (by simp) ] at hnopath
    rw [show (if (false : Bool) then aTformB robot_state.kinematic_state.transforms_snapshot
          "vision" "body" else aTformB robot_state.kinematic_state.transforms_snapshot
          "odom" "body") = aTformB robot_state.kinematic_state.transforms_snapshot
          "odom" "body" from rfl, hnopath]
    exact ⟨_, rfl, rfl⟩
  · rw [if_pos rfl] at hnopath
    rw [show (if (true : Bool) then aTformB robot_state.kinematic_state.transforms_snapshot
          "vision" "body" else aTformB robot_state.kinematic_state.transforms_snapshot
          "odom" "body") = aTformB robot_state.kinematic_state.transforms_snapshot
          "vision" "body" from rfl, hnopath]
    exact ⟨_, rfl, rfl⟩

/-- C2 witness: the amended theorem applied to the empty-graph state with the
vision reference frame. -/
theorem c2_no_path_default_pose_witness :
    noPathState.has_kinematic_state = true ∧
    aTformB noPathState.kinematic_state.transforms_snapshot
      (if true then "vision" else "odom") "body" = none ∧
    ∃ msg, GetOdom noPathState ⟨0, 0⟩ "Opal/" true = some msg ∧
      msg.pose = ⟨SE3Pose.protoDefault.position, SE3Pose.protoDefault.rotation⟩ :=
  ⟨rfl, by decide,
   c2_no_path_default_pose noPathState ⟨0, 0⟩ "Opal/" true rfl (by decide)⟩

/-! ## Claim C3: the twist fields read from `velocity_of_body_in_odom`. -/

/-- C3: at a snapshot whose body velocity has linear components `(1, 2, 3)`
and angular components `(4, 5, 6)`, the derived twist's angular part is
`(1, 5, 6)`: the source's line 153 copies `angular.x` from `linear().x()`
instead of `angular().x()`, so the output angular x does not equal the
snapshot's angular x. -/
theorem c3_angular_x_copied_from_linear_x :
    (GetOdomTwist velocityState ⟨0, 0⟩).map
      (fun m => (m.twist.linear, m.twist.angular)) =
      some (⟨1, 2, 3⟩, ⟨1, 5, 6⟩) ∧
    (⟨1, 5, 6⟩ : Vec3) ≠ ⟨4, 5, 6⟩ := by
  constructor
  · decide
  · decide

/-! ## Claim C6: vision versus odom reference-frame choice. -/

lemma getOdom_eq (robot_state : RobotState) (clock_skew : Duration) (pfx : String)
    (is_using_vision : Bool) (hk : robot_state.has_kinematic_state = true) :
    GetOdom robot_state clock_skew pfx is_using_vision =
      some ⟨applyClockSkew robot_state.kinematic_state.acquisition_timestamp clock_skew,
            if is_using_vision then pfx ++ "vision" else pfx ++ "odom",
            pfx ++ "body",
            ⟨((if is_using_vision then
                aTformB robot_state.kinematic_state.transforms_snapshot "vision" "body"
              else
                aTformB robot_state.kinematic_state.transforms_snapshot "odom" "body").getD
                SE3Pose.protoDefault).position,
             ((if is_using_vision then
                aTformB robot_state.kinematic_state.transforms_snapshot "vision" "body"
              else
                aTformB robot_state.kinematic_state.transforms_snapshot "odom" "body").getD
                SE3Pose.protoDefault).rotation⟩,
            ((GetOdomTwist robot_state clock_skew).getD
              ⟨⟨0, 0⟩, ⟨⟨0, 0, 0⟩, ⟨0, 0, 0⟩⟩⟩).twist⟩ := by
  unfold GetOdom
  rw [if_pos hk]

/-- C6: for every snapshot with kinematic state present, deriving odometry
with the vision reference frame versus the odom reference frame yields pose
frame ids `prefix + "vision"` versus `prefix + "odom"` (which are distinct),
the same child frame id `prefix + "body"` in both runs, and identical twist
values in both runs. -/
theorem c6_reference_frame_switch (robot_state : RobotState) (clock_skew : Duration)
    (pfx : String) (hk : robot_state.has_kinematic_state = true) :
    ∃ mv mo, GetOdom robot_state clock_skew pfx true = some mv ∧
      GetOdom robot_state clock_skew pfx false = some mo ∧
      mv.frame_id = pfx ++ "vision" ∧ mo.frame_id = pfx ++ "odom" ∧
      mv.frame_id ≠ mo.frame_id ∧
      mv.child_frame_id = pfx ++ "body" ∧ mo.child_frame_id = pfx ++ "body" ∧
      mv.twist = mo.twist := by
  have hne : (pfx ++ "vision" : String) ≠ pfx ++ "odom" := by
    intro h
    have hlen := congrArg String.length h
    rw [String.length_append, String.length_append] at hlen
    have h6 : "vision".length = 6 := rfl
    have h4 : "odom".length = 4 := rfl
    omega
  exact ⟨_, _, getOdom_eq robot_state clock_skew pfx true hk,
         getOdom_eq robot_state clock_skew pfx false hk,
         rfl, rfl, hne, rfl, rfl, rfl⟩

/-- C6 witness: the theorem applied to the empty-graph velocity snapshot with
prefix `"Opal/"`. -/
theorem c6_reference_frame_switch_witness :
    velocityState.has_kinematic_state = true ∧
    ∃ mv mo, GetOdom velocityState ⟨0, 0⟩ "Opal/" true = some mv ∧
      GetOdom velocityState ⟨0, 0⟩ "Opal/" false = some mo ∧
      mv.frame_id = "Opal/" ++ "vision" ∧ mo.frame_id = "Opal/" ++ "odom" ∧
      mv.frame_id ≠ mo.frame_id ∧
      mv.child_frame_id = "Opal/" ++ "body" ∧ mo.child_frame_id = "Opal/" ++ "body" ∧
      mv.twist = mo.twist :=
  ⟨rfl, c6_reference_frame_switch velocityState ⟨0, 0⟩ "Opal/" rfl⟩

/-! ## Claim C7: joint-name mapping. -/

lemma buildJointLists_eq_ok (joints : List JointStateRaw) (pfx : String)
    (h : ∀ j ∈ joints, (kFriendlyJointNames.lookup j.name).isSome = true) :
    buildJointLists joints pfx =
      .ok (joints.map (fun j => pfx ++ (kFriendlyJointNames.lookup j.name).getD ""),
           joints.map JointStateRaw.position,
           joints.map JointStateRaw.velocity,
           joints.map JointStateRaw.load) := by
  induction joints with
  | nil => rfl
  | cons j rest ih =>
    have hj := h j (List.mem_cons_self j rest)
    obtain ⟨friendly, hf⟩ := Option.isSome_iff_exists.mp hj
    have hrest := ih (fun x hx => h x (List.mem_cons_of_mem j hx))
    simp only [buildJointLists, hf, hrest, List.map_cons]
    simp [hf]

lemma buildJointLists_eq_error (joints : List JointStateRaw) (pfx : String)
    (h : ∃ j ∈ joints, kFriendlyJointNames.lookup j.name = none) :
    ∃ e, buildJointLists joints pfx = .error e := by
  induction joints with
  | nil => simp at h
  | cons j rest ih =>
    by_cases hj : kFriendlyJointNames.lookup j.name = none
    · exact ⟨j.name, by simp only [buildJointLists, hj]⟩
    · obtain ⟨friendly, hf⟩ := Option.ne_none_iff_exists'.mp hj
      obtain ⟨x, hx, hxn⟩ := h
      rcases List.mem_cons.mp hx with h1 | h2
      · exact absurd (h1 ▸ hxn) hj
      · obtain ⟨e, he⟩ := ih ⟨x, h2, hxn⟩
        exact ⟨e, by simp only [buildJointLists, hf, he]⟩

/-- C7: for every snapshot with kinematic state present, if every joint's raw
name is a key of the friendly-name table then the derived joint state exists
and its names are exactly `prefix + friendly name` per joint in order, and if
some joint's raw name is absent from the table the derivation fails (the
lookup throw escapes) rather than silently dropping that joint. -/
theorem c7_friendly_names_or_throw (robot_state : RobotState) (clock_skew : Duration)
    (pfx : String) (hk : robot_state.has_kinematic_state = true) :
    ((∀ j ∈ robot_state.kinematic_state.joint_states,
        (kFriendlyJointNames.lookup j.name).isSome = true) →
      ∃ msg, GetJointStates robot_state clock_skew pfx = .ok (some msg) ∧
        msg.name = robot_state.kinematic_state.joint_states.map
          (fun j => pfx ++ (kFriendlyJointNames.lookup j.name).getD "")) ∧
    ((∃ j ∈ robot_state.kinematic_state.joint_states,
        kFriendlyJointNames.lookup j.name = none) →
      ∃ e, GetJointStates robot_state clock_skew pfx = .error e) := by
  constructor
  · intro hall
    unfold GetJointStates
    rw [if_pos hk, buildJointLists_eq_ok _ _ hall]
    exact ⟨_, rfl, rfl⟩
  · intro hex
    obtain ⟨e, he⟩ := buildJointLists_eq_error _ pfx hex
    unfold GetJointStates
    rw [if_pos hk, he]
    exact ⟨e, rfl⟩

/-- C7 witness: the theorem applied to the snapshot holding the single joint
`"fl.hx"`, whose output name is `"Opal/front_left_hip_x"`. -/
theorem c7_friendly_names_or_throw_witness :
    acq100State.has_kinematic_state = true ∧
    GetJointStates acq100State ⟨5, 0⟩ "Opal/" =
      .ok (some ⟨⟨105, 0⟩, ["Opal/front_left_hip_x"], [1], [2], [3]⟩) ∧
    (((∀ j ∈ acq100State.kinematic_state.joint_states,
        (kFriendlyJointNames.lookup j.name).isSome = true) →
      ∃ msg, GetJointStates acq100State ⟨5, 0⟩ "Opal/" = .ok (some msg) ∧
        msg.name = acq100State.kinematic_state.joint_states.map
          (fun j => "Opal/" ++ (kFriendlyJointNames.lookup j.name).getD "")) ∧
    ((∃ j ∈ acq100State.kinematic_state.joint_states,
        kFriendlyJointNames.lookup j.name = none) →
      ∃ e, GetJointStates acq100State ⟨5, 0⟩ "Opal/" = .error e)) :=
  ⟨rfl, rfl, c7_friendly_names_or_throw acq100State ⟨5, 0⟩ "Opal/" rfl⟩

/-! ## Presence/absence shape lemmas for the optional converters. -/

lemma getJointStates_absent (robot_state : RobotState) (clock_skew : Duration)
    (pfx : String) (hk : robot_state.has_kinematic_state = false) :
    GetJointStates robot_state clock_skew pfx = .ok none := by
  unfold GetJointStates
  rw [if_neg (by simp [hk])]

lemma getTf_absent (robot_state : RobotState) (clock_skew : Duration)
    (pfx tgt : String) (hk : robot_state.has_kinematic_state = false) :
    GetTf robot_state clock_skew pfx tgt = none := by
  unfold GetTf
  rw [if_neg (by simp [hk])]

lemma getOdomTwist_eq (robot_state : RobotState) (clock_skew : Duration)
    (hk : robot_state.has_kinematic_state = true) :
    GetOdomTwist robot_state clock_skew =
      some ⟨applyClockSkew robot_state.kinematic_state.acquisition_timestamp clock_skew,
        ⟨⟨robot_state.kinematic_state.velocity_of_body_in_odom.linear.x,
          robot_state.kinematic_state.velocity_of_body_in_odom.linear.y,
          robot_state.kinematic_state.velocity_of_body_in_odom.linear.z⟩,
         ⟨robot_state.kinematic_state.velocity_of_body_in_odom.linear.x,
          robot_state.kinematic_state.velocity_of_body_in_odom.angular.y,
          robot_state.kinematic_state.velocity_of_body_in_odom.angular.z⟩⟩⟩ := by
  unfold GetOdomTwist
  rw [if_pos hk]

lemma getOdomTwist_absent (robot_state : RobotState) (clock_skew : Duration)
    (hk : robot_state.has_kinematic_state = false) :
    GetOdomTwist robot_state clock_skew = none := by
  unfold GetOdomTwist
  rw [if_neg (by simp [hk])]

lemma getOdom_absent (robot_state : RobotState) (clock_skew : Duration)
    (pfx : String) (is_using_vision : Bool)
    (hk : robot_state.has_kinematic_state = false) :
    GetOdom robot_state clock_skew pfx is_using_vision = none := by
  unfold GetOdom
  rw [if_neg (by simp [hk])]

lemma getPowerState_eq (robot_state : RobotState) (clock_skew : Duration)
    (hp : robot_state.has_power_state = true) :
    GetPowerState robot_state clock_skew =
      some ⟨applyClockSkew robot_state.power_state.timestamp clock_skew,
        robot_state.power_state.motor_power_state,
        robot_state.power_state.shore_power_state,
        robot_state.power_state.locomotion_charge_percentage,
        robot_state.power_state.locomotion_estimated_runtime⟩ := by
  unfold GetPowerState
  rw [if_pos hp]

lemma getPowerState_absent (robot_state : RobotState) (clock_skew : Duration)
    (hp : robot_state.has_power_state = false) :
    GetPowerState robot_state clock_skew = none := by
  unfold GetPowerState
  rw [if_neg (by simp [hp])]

lemma getSystemFaultState_eq (robot_state : RobotState) (clock_skew : Duration)
    (hs : robot_state.has_system_fault_state = true) :
    GetSystemFaultState robot_state clock_skew =
      some ⟨robot_state.system_fault_state.faults.map (createFaultMessage clock_skew),
            robot_state.system_fault_state.historical_faults.map
              (createFaultMessage clock_skew)⟩ := by
  unfold GetSystemFaultState
  rw [if_pos hs]

lemma getSystemFaultState_absent (robot_state : RobotState) (clock_skew : Duration)
    (hs : robot_state.has_system_fault_state = false) :
    GetSystemFaultState robot_state clock_skew = none := by
  unfold GetSystemFaultState
  rw [if_neg (by simp [hs])]

lemma getManipulatorState_absent (robot_state : RobotState)
    (hm : robot_state.has_manipulator_state = false) :
    GetManipulatorState robot_state = none := by
  unfold GetManipulatorState
  rw [if_neg (by simp [hm])]

lemma getEndEffectorForce_eq (robot_state : RobotState) (clock_skew : Duration)
    (pfx : String) (hm : robot_state.has_manipulator_state = true) :
    GetEndEffectorForce robot_state clock_skew pfx =
      some ⟨applyClockSkew robot_state.kinematic_state.acquisition_timestamp clock_skew,
        pfx ++ "hand",
        robot_state.manipulator_state.estimated_end_effector_force_in_hand⟩ := by
  unfold GetEndEffectorForce
  rw [if_pos hm]

lemma getEndEffectorForce_absent (robot_state : RobotState) (clock_skew : Duration)
    (pfx : String) (hm : robot_state.has_manipulator_state = false) :
    GetEndEffectorForce robot_state clock_skew pfx = none := by
  unfold GetEndEffectorForce
  rw [if_neg (by simp [hm])]

lemma getBehaviorFaultState_eq (robot_state : RobotState) (clock_skew : Duration)
    (hb : robot_state.has_behavior_fault_state = true) :
    GetBehaviorFaultState robot_state clock_skew =
      some ⟨robot_state.behavior_fault_state.map (fun fault =>
        ⟨fault.behavior_fault_id, applyClockSkew fault.onset_timestamp clock_skew,
         fault.cause, fault.status⟩)⟩ := by
  unfold GetBehaviorFaultState
  rw [if_pos hb]

lemma getBehaviorFaultState_absent (robot_state : RobotState) (clock_skew : Duration)
    (hb : robot_state.has_behavior_fault_state = false) :
    GetBehaviorFaultState robot_state clock_skew = none := by
  unfold GetBehaviorFaultState
  rw [if_neg (by simp [hb])]

lemma getJointStates_ok_iff (robot_state : RobotState) (clock_skew : Duration)
    (pfx : String) :
    (∃ r, GetJointStates robot_state clock_skew pfx = .ok r) ↔
      JointNamesKnown robot_state := by
  unfold JointNamesKnown
  cases hk : robot_state.has_kinematic_state with
  | false =>
    constructor
    · intro _ hkt
      exact absurd hkt (by simp)
    · intro _
      exact ⟨none, getJointStates_absent robot_state clock_skew pfx hk⟩
  | true =>
    constructor
    · rintro ⟨r, hr⟩ _ j hj
      by_contra hnone
      have hn : kFriendlyJointNames.lookup j.name = none :=
        Option.not_isSome_iff_eq_none.mp (by simpa using hnone)
      obtain ⟨e, he⟩ := buildJointLists_eq_error
        robot_state.kinematic_state.joint_states pfx ⟨j, hj, hn⟩
      unfold GetJointStates at hr
      rw [if_pos hk, he] at hr
      exact absurd hr (by simp)
    · intro hall
      refine ⟨some ⟨applyClockSkew robot_state.kinematic_state.acquisition_timestamp clock_skew,
        robot_state.kinematic_state.joint_states.map
          (fun j => pfx ++ (kFriendlyJointNames.lookup j.name).getD ""),
        robot_state.kinematic_state.joint_states.map JointStateRaw.position,
        robot_state.kinematic_state.joint_states.map JointStateRaw.velocity,
        robot_state.kinematic_state.joint_states.map JointStateRaw.load⟩, ?_⟩
      unfold GetJointStates
      rw [if_pos hk, buildJointLists_eq_ok _ _ (hall rfl)]

/-! ## Claim C4: error gating of the aggregation cycle. -/

lemma getRobotState_success (client : DefaultRobotStateClient)
    (fetch : RobotStateResultType) (getClockSkew : Nat → Except String Duration)
    (skew : Duration) (js : Option JointStateMsg)
    (h1 : fetch.status_ok = true) (h2 : fetch.has_robot_state = true)
    (hsk : getClockSkew 0 = .ok skew)
    (hjs : GetJointStates fetch.robot_state skew "Opal/" = .ok js) :
    client.getRobotState fetch getClockSkew =
      (.ok ⟨GetBatteryStates fetch.robot_state skew, GetWifiState fetch.robot_state,
        GetFootState fetch.robot_state, GetEstopStates fetch.robot_state skew, js,
        GetTf fetch.robot_state skew "Opal/" "body", GetOdomTwist fetch.robot_state skew,
        GetOdom fetch.robot_state skew "Opal/" true, GetPowerState fetch.robot_state skew,
        GetSystemFaultState fetch.robot_state skew, GetManipulatorState fetch.robot_state,
        GetEndEffectorForce fetch.robot_state skew "Opal/",
        GetBehaviorFaultState fetch.robot_state skew⟩, 1) := by
  unfold DefaultRobotStateClient.getRobotState
  rw [if_neg (by simp [h1, h2])]
  simp only [hsk, hjs]

/-- C4 counterexample: a successful fetch with payload and an available clock
skew still fails to produce an `AggregatedState` when the snapshot holds a
joint whose raw name (`"bogus"`) is absent from the friendly-name table: the
lookup throw escapes the cycle. -/
theorem c4_counterexample :
    unknownJointFetch.status_ok = true ∧
    unknownJointFetch.has_robot_state = true ∧
    ((fun _ => Except.ok ⟨0, 0⟩ : Nat → Except String Duration) 0 =
      Except.ok ⟨0, 0⟩) ∧
    (mkDefaultRobotStateClient "Spot").getRobotState unknownJointFetch
      (fun _ => .ok ⟨0, 0⟩) = (.error (.unknownJointError "bogus"), 1) :=
  ⟨rfl, rfl, rfl, rfl⟩

/-- C4 amended: one aggregation cycle returns an error exactly when the
upstream fetch did not succeed or carried no payload (`RpcError`), the
clock-skew lookup failed (`ClockSyncError`), or a joint raw name is absent
from the friendly-name table (the escaping lookup throw); in every other case
it returns an `AggregatedState`, and absence of an optional sub-message never
fails the cycle — it only leaves the corresponding result field absent. -/
theorem c4_error_gating (client : DefaultRobotStateClient)
    (fetch : RobotStateResultType) (getClockSkew : Nat → Except String Duration) :
    ((∃ out n, client.getRobotState fetch getClockSkew = (.ok out, n)) ↔
      (fetch.status_ok = true ∧ fetch.has_robot_state = true ∧
       (∃ skew, getClockSkew 0 = .ok skew) ∧ JointNamesKnown fetch.robot_state)) ∧
    (∀ out n, client.getRobotState fetch getClockSkew = (.ok out, n) →
      (fetch.robot_state.has_kinematic_state = false →
        out.joint_states = none ∧ out.tf = none ∧ out.odom_twist = none ∧
        out.odom = none) ∧
      (fetch.robot_state.has_power_state = false → out.power_state = none) ∧
      (fetch.robot_state.has_system_fault_state = false →
        out.system_fault_state = none) ∧
      (fetch.robot_state.has_manipulator_state = false →
        out.manipulator_state = none ∧ out.end_effector_force = none) ∧
      (fetch.robot_state.has_behavior_fault_state = false →
        out.behavior_fault_state = none)) := by
  constructor
  · constructor
    · rintro ⟨out, n, hout⟩
      unfold DefaultRobotStateClient.getRobotState at hout
      by_cases hcond : (!fetch.status_ok || !fetch.has_robot_state) = true
      · rw [if_pos hcond] at hout
        exact absurd hout (by simp)
      · rw [if_neg hcond] at hout
        simp only [Bool.or_eq_true, Bool.not_eq_true', not_or,
          Bool.not_eq_false] at hcond
        cases hsk : getClockSkew 0 with
        | error e =>
          simp only [hsk] at hout
          exact absurd hout (by simp)
        | ok skew =>
          simp only [hsk] at hout
          cases hjs : GetJointStates fetch.robot_state skew "Opal/" with
          | error jn =>
            simp only [hjs] at hout
            exact absurd hout (by simp)
          | ok js =>
            exact ⟨hcond.1, hcond.2, ⟨skew, rfl⟩,
              (getJointStates_ok_iff fetch.robot_state skew "Opal/").mp ⟨js, hjs⟩⟩
    · rintro ⟨h1, h2, ⟨skew, hsk⟩, hjn⟩
      obtain ⟨r, hr⟩ := (getJointStates_ok_iff fetch.robot_state skew "Opal/").mpr hjn
      exact ⟨_, 1, getRobotState_success client fetch getClockSkew skew r h1 h2 hsk hr⟩
  · intro out n hout
    unfold DefaultRobotStateClient.getRobotState at hout
    by_cases hcond : (!fetch.status_ok || !fetch.has_robot_state) = true
    · rw [if_pos hcond] at hout
      exact absurd hout (by simp)
    · rw [if_neg hcond] at hout
      cases hsk : getClockSkew 0 with
      | error e =>
        simp only [hsk] at hout
        exact absurd hout (by simp)
      | ok skew =>
        simp only [hsk] at hout
        cases hjs : GetJointStates fetch.robot_state skew "Opal/" with
        | error jn =>
          simp only [hjs] at hout
          exact absurd hout (by simp)
        | ok js =>
          simp only [hjs] at hout
          obtain ⟨hok, hn⟩ := Prod.mk.inj hout
          obtain hrec := Except.ok.inj hok
          subst hrec
          refine ⟨?_, ?_, ?_, ?_, ?_⟩
          · intro hk
            refine ⟨?_, getTf_absent fetch.robot_state skew "Opal/" "body" hk,
              getOdomTwist_absent fetch.robot_state skew hk,
              getOdom_absent fetch.robot_state skew "Opal/" true hk⟩
            have habs := getJointStates_absent fetch.robot_state skew "Opal/" hk
            rw [hjs] at habs
            exact Except.ok.inj habs
          · exact fun hp => getPowerState_absent fetch.robot_state skew hp
          · exact fun hs => getSystemFaultState_absent fetch.robot_state skew hs
          · exact fun hm => ⟨getManipulatorState_absent fetch.robot_state hm,
              getEndEffectorForce_absent fetch.robot_state skew "Opal/" hm⟩
          · exact fun hb => getBehaviorFaultState_absent fetch.robot_state skew hb

/-! ## Claim C5: the single skew value is applied to every derived stamp. -/

lemma stamps_battery (rs : RobotState) (skew : Duration) :
    (GetBatteryStates rs skew).battery_states.map BatteryStateMsg.stamp =
      (rs.battery_states.map BatteryStateRaw.timestamp).map
        (fun t => applyClockSkew t skew) := by
  unfold GetBatteryStates
  simp only [List.map_map]
  rfl

lemma stamps_estop (rs : RobotState) (skew : Duration) :
    (GetEstopStates rs skew).estop_states.map EStopStateMsg.stamp =
      (rs.estop_states.map EStopStateRaw.timestamp).map
        (fun t => applyClockSkew t skew) := by
  unfold GetEstopStates
  simp only [List.map_map]
  rfl

lemma stamps_tf (rs : RobotState) (skew : Duration) :
    (match GetTf rs skew "Opal/" "body" with
      | some m => m.transforms.map TransformStampedMsg.stamp
      | none => []) =
      (if rs.has_kinematic_state then
        rs.kinematic_state.transforms_snapshot.map
          (fun _ => rs.kinematic_state.acquisition_timestamp)
       else []).map (fun t => applyClockSkew t skew) := by
  cases hk : rs.has_kinematic_state with
  | true =>
    rw [getTf_eq rs skew "Opal/" "body" hk]
    rw [if_pos (rfl : (true : Bool) = true)]
    simp only [List.map_map]
    refine List.map_congr_left (fun e he => ?_)
    by_cases hcond : ("body" : String) = "Opal/" ++ e.fst
    · simp [hcond]
    · simp [hcond]
  | false =>
    rw [getTf_absent rs skew "Opal/" "body" hk]
    simp

lemma stamps_system_fault (rs : RobotState) (skew : Duration) :
    (match GetSystemFaultState rs skew with
      | some m => m.faults.map SystemFaultMsg.stamp ++
          m.historical_faults.map SystemFaultMsg.stamp
      | none => []) =
      (if rs.has_system_fault_state then
        rs.system_fault_state.faults.map SystemFaultRaw.onset_timestamp ++
        rs.system_fault_state.historical_faults.map SystemFaultRaw.onset_timestamp
       else []).map (fun t => applyClockSkew t skew) := by
  cases hs : rs.has_system_fault_state with
  | true =>
    rw [getSystemFaultState_eq rs skew hs]
    simp only [List.map_map]
    rw [if_true, List.map_append, List.map_map, List.map_map]
    rfl
  | false =>
    rw [getSystemFaultState_absent rs skew hs]
    simp

lemma stamps_behavior_fault (rs : RobotState) (skew : Duration) :
    (match GetBehaviorFaultState rs skew with
      | some m => m.faults.map BehaviorFaultMsg.stamp
      | none => []) =
      (if rs.has_behavior_fault_state then
        rs.behavior_fault_state.map BehaviorFaultRaw.onset_timestamp
       else []).map (fun t => applyClockSkew t skew) := by
  cases hb : rs.has_behavior_fault_state with
  | true =>
    rw [getBehaviorFaultState_eq rs skew hb]
    simp only [List.map_map]
    rw [if_true, List.map_map]
    rfl
  | false =>
    rw [getBehaviorFaultState_absent rs skew hb]
    simp

lemma stamps_odom_twist (rs : RobotState) (skew : Duration) :
    (match GetOdomTwist rs skew with
      | some m => [m.stamp]
      | none => []) =
      (if rs.has_kinematic_state then
        [rs.kinematic_state.acquisition_timestamp]
       else []).map (fun t => applyClockSkew t skew) := by
  cases hk : rs.has_kinematic_state with
  | true => rw [getOdomTwist_eq rs skew hk]; simp
  | false => rw [getOdomTwist_absent rs skew hk]; simp

lemma stamps_odom (rs : RobotState) (skew : Duration) :
    (match GetOdom rs skew "Opal/" true with
      | some m => [m.stamp]
      | none => []) =
      (if rs.has_kinematic_state then
        [rs.kinematic_state.acquisition_timestamp]
       else []).map (fun t => applyClockSkew t skew) := by
  cases hk : rs.has_kinematic_state with
  | true => rw [getOdom_eq rs skew "Opal/" true hk]; simp
  | false => rw [getOdom_absent rs skew "Opal/" true hk]; simp

lemma stamps_power (rs : RobotState) (skew : Duration) :
    (match GetPowerState rs skew with
      | some m => [m.stamp]
      | none => []) =
      (if rs.has_power_state then [rs.power_state.timestamp]
       else []).map (fun t => applyClockSkew t skew) := by
  cases hp : rs.has_power_state with
  | true => rw [getPowerState_eq rs skew hp]; simp
  | false => rw [getPowerState_absent rs skew hp]; simp

lemma stamps_end_effector (rs : RobotState) (skew : Duration) :
    (match GetEndEffectorForce rs skew "Opal/" with
      | some m => [m.stamp]
      | none => []) =
      (if rs.has_manipulator_state then
        [rs.kinematic_state.acquisition_timestamp]
       else []).map (fun t => applyClockSkew t skew) := by
  cases hm : rs.has_manipulator_state with
  | true => rw [getEndEffectorForce_eq rs skew "Opal/" hm]; simp
  | false => rw [getEndEffectorForce_absent rs skew "Opal/" hm]; simp

lemma collectStamps_uniform (rs : RobotState) (skew : Duration) (js : Option JointStateMsg)
    (hjsmatch : (match js with | some m => [m.stamp] | none => []) =
      (if rs.has_kinematic_state then [rs.kinematic_state.acquisition_timestamp]
       else []).map (fun t => applyClockSkew t skew)) :
    RobotStateOut.collectStamps ⟨GetBatteryStates rs skew, GetWifiState rs, GetFootState rs,
      GetEstopStates rs skew, js, GetTf rs skew "Opal/" "body", GetOdomTwist rs skew,
      GetOdom rs skew "Opal/" true, GetPowerState rs skew, GetSystemFaultState rs skew,
      GetManipulatorState rs, GetEndEffectorForce rs skew "Opal/",
      GetBehaviorFaultState rs skew⟩ =
      rs.collectRawStamps.map (fun t => applyClockSkew t skew) := by
  unfold RobotStateOut.collectStamps RobotState.collectRawStamps
  simp only [List.map_append]
  rw [stamps_battery, stamps_estop, hjsmatch, stamps_tf, stamps_odom_twist, stamps_odom,
      stamps_power, stamps_system_fault, stamps_end_effector, stamps_behavior_fault]

/-- C5: within one successful aggregation cycle the clock skew is obtained
exactly once (the call counter equals 1) and that single skew value is applied
to every derived timestamp of the resulting aggregated state: the gathered
output stamps equal the gathered raw input stamps with the one skew applied
pointwise. -/
theorem c5_single_skew_applied_uniformly (client : DefaultRobotStateClient)
    (fetch : RobotStateResultType) (getClockSkew : Nat → Except String Duration)
    (skew : Duration)
    (h1 : fetch.status_ok = true) (h2 : fetch.has_robot_state = true)
    (hsk : getClockSkew 0 = .ok skew) (hjn : JointNamesKnown fetch.robot_state) :
    ∃ out, client.getRobotState fetch getClockSkew = (.ok out, 1) ∧
      out.collectStamps =
        fetch.robot_state.collectRawStamps.map (fun t => applyClockSkew t skew) := by
  cases hk : fetch.robot_state.has_kinematic_state with
  | true =>
    have hjs : GetJointStates fetch.robot_state skew "Opal/" =
        .ok (some ⟨applyClockSkew
            fetch.robot_state.kinematic_state.acquisition_timestamp skew,
          fetch.robot_state.kinematic_state.joint_states.map
            (fun j => "Opal/" ++ (kFriendlyJointNames.lookup j.name).getD ""),
          fetch.robot_state.kinematic_state.joint_states.map JointStateRaw.position,
          fetch.robot_state.kinematic_state.joint_states.map JointStateRaw.velocity,
          fetch.robot_state.kinematic_state.joint_states.map JointStateRaw.load⟩) := by
      unfold GetJointStates
      rw [if_pos hk, buildJointLists_eq_ok _ _ (hjn hk)]
    refine ⟨_, getRobotState_success client fetch getClockSkew skew _ h1 h2 hsk hjs, ?_⟩
    refine collectStamps_uniform fetch.robot_state skew _ ?_
    rw [if_pos hk]
    rfl
  | false =>
    have hjs := getJointStates_absent fetch.robot_state skew "Opal/" hk
    refine ⟨_, getRobotState_success client fetch getClockSkew skew none h1 h2 hsk hjs, ?_⟩
    refine collectStamps_uniform fetch.robot_state skew none ?_
    rw [if_neg (by simp [hk])]
    rfl

/-- C5 witness: the theorem applied to the snapshot with kinematic state
present, acquisition timestamp 100 s and skew +5 s; all derived timestamps
equal 105 s. -/
theorem c5_single_skew_applied_uniformly_witness :
    acq100Fetch.status_ok = true ∧ acq100Fetch.has_robot_state = true ∧
    ((fun _ => Except.ok ⟨5, 0⟩ : Nat → Except String Duration) 0 =
      Except.ok ⟨5, 0⟩) ∧
    JointNamesKnown acq100Fetch.robot_state ∧
    (∃ out, (mkDefaultRobotStateClient "Spot").getRobotState acq100Fetch
        (fun _ => .ok ⟨5, 0⟩) = (.ok out, 1) ∧
      out.collectStamps = acq100Fetch.robot_state.collectRawStamps.map
        (fun t => applyClockSkew t ⟨5, 0⟩)) ∧
    acq100Fetch.robot_state.collectRawStamps.map (fun t => applyClockSkew t ⟨5, 0⟩) =
      [⟨105, 0⟩, ⟨105, 0⟩, ⟨105, 0⟩] :=
  ⟨rfl, rfl, rfl, by decide,
   c5_single_skew_applied_uniformly (mkDefaultRobotStateClient "Spot") acq100Fetch
     (fun _ => .ok ⟨5, 0⟩) ⟨5, 0⟩ rfl rfl rfl (by decide), by decide⟩

/-! ## Claim C10: the constructor's robot name does not influence the output. -/

/-- C10: the `robot_name` given to the constructor has no influence on
`getRobotState`: two clients built from any two robot names produce identical
results on the same fetched state and clock-skew source, even though their
stored `frame_prefix_` members differ — the member is never read and the
output prefixes are the compiled-in literal `"Opal/"`. -/
theorem c10_robot_name_has_no_influence :
    (∀ (name1 name2 : String) (fetch : RobotStateResultType)
       (getClockSkew : Nat → Except String Duration),
      (mkDefaultRobotStateClient name1).getRobotState fetch getClockSkew =
        (mkDefaultRobotStateClient name2).getRobotState fetch getClockSkew) ∧
    (mkDefaultRobotStateClient "A").frame_prefix_ ≠
      (mkDefaultRobotStateClient "B").frame_prefix_ :=
  ⟨fun _ _ _ _ => rfl, by decide⟩
